import Mathlib

/-!
# Verification of the M.O.V.E. coaching rule engine

Shallow embedding of the rule engine in `src/App.js` of the M.O.V.E. AI
coaching MVP: the data model, the focus selector (`chooseFocus`/`nextDay`),
the load-adjustment rule (`adjustLoad`), the load estimator
(`suggestStartingLoad`), the plan generator (`aiGenerateSessions`), the
quick actions (`applyQuickAction`), the progression state machine
(`nextWeek`) and the triage KPIs (`adherence`, `redFlags`).

JS numbers are modelled as `ℤ`/`ℕ` where the program treats them as
integers (loads, counters, flags) and as `ℚ` where fractional arithmetic
occurs (`Math.round` of percentage scalings, RPE averages); `Math.round`
rounds half toward positive infinity, which is `⌊q + 1/2⌋`.  `null` and
absent fields are `Option`.
-/

namespace Move

/-- The seven canonical weekday tokens, `"Mon"` … `"Sun"`. -/
inductive Day where
  | Mon | Tue | Wed | Thu | Fri | Sat | Sun
deriving Repr, DecidableEq, BEq

/-- The `weekdays` array from the source. -/
def weekdays : List Day := [.Mon, .Tue, .Wed, .Thu, .Fri, .Sat, .Sun]

/-- `nextDay(day)`: `weekdays[(weekdays.indexOf(day) + 1) % 7]`.  The index is
always in range for a canonical weekday, so the JS array access is modelled
with `getD`. -/
def nextDay (day : Day) : Day :=
  weekdays.getD ((weekdays.indexOf day + 1) % 7) day

/-- The three template keys. -/
inductive Focus where
  | lower_strength | upper_shoulder_safe | gpp
deriving Repr, DecidableEq, BEq

/-- The periodization phases, `"Base" | "Build" | "Peak" | "Deload"`. -/
inductive Phase where
  | Base | Build | Peak | Deload
deriving Repr, DecidableEq, BEq

/-- The fixed injury-area enumeration offered by the UI. -/
inductive InjuryArea where
  | shoulder | knee | hip | back | wrist | ankle
deriving Repr, DecidableEq, BEq

/-- An injury record on the profile. -/
structure Injury where
  id : String
  area : InjuryArea
  aggravates : List String
  severity : Nat
deriving Repr, DecidableEq

/-- The equipment checklist of the profile. -/
structure Equipment where
  barbell : Bool
  rack : Bool
  dumbbells : Bool
  kettlebells : Bool
  bands : Bool
  sled : Bool
deriving Repr, DecidableEq

/-- The preference record of the profile. -/
structure Prefs where
  barbellBias : Bool
  dislikes : List String
deriving Repr, DecidableEq

/-- The user profile. -/
structure Profile where
  name : String
  email : String
  goal : String
  trainingAgeYrs : Nat
  daysAvailable : List Day
  minutesPerSession : Nat
  equipment : Equipment
  bjjDays : List Day
  injuries : List Injury
  prefs : Prefs
deriving Repr, DecidableEq

/-- `defaultProfile` from the source. -/
def defaultProfile : Profile :=
  { name := ""
    email := ""
    goal := "bjj_strength"
    trainingAgeYrs := 3
    daysAvailable := [.Mon, .Thu]
    minutesPerSession := 60
    equipment :=
      { barbell := true, rack := true, dumbbells := true,
        kettlebells := true, bands := true, sled := false }
    bjjDays := [.Tue, .Fri]
    injuries := []
    prefs := { barbellBias := true, dislikes := [] } }

/-- The readiness snapshot (`readinessToday`). -/
structure Readiness where
  sleep : Nat
  soreness : Nat
  stress : Nat
  hrv : Option Int
  bjjLoad : String
deriving Repr, DecidableEq

/-- The default readiness snapshot from `defaultState`. -/
def defaultReadiness : Readiness :=
  { sleep := 7, soreness := 3, stress := 3, hrv := none, bjjLoad := "moderate" }

/-- The derived constraint set. -/
structure Constraints where
  shoulder : Bool
deriving Repr, DecidableEq

/-- `inferConstraints(profile)`: the `shoulder` flag is set iff some injury has
area `"shoulder"`. -/
def inferConstraints (profile : Profile) : Constraints :=
  { shoulder := profile.injuries.any (fun i => i.area == .shoulder) }

/-- `chooseFocus(day, profile)` from the source, including the
`bjjTomorrow` lookup that the Mon/Thu/Sat branches ignore. -/
def chooseFocus (day : Day) (profile : Profile) : Focus :=
  let bjjTomorrow := profile.bjjDays.contains (nextDay day)
  if day = .Mon then .lower_strength
  else if day = .Thu then .upper_shoulder_safe
  else if day = .Sat then .gpp
  else if bjjTomorrow then .upper_shoulder_safe else .lower_strength

/-- JS `Math.round`: round half toward positive infinity. -/
def jsRound (q : ℚ) : ℤ := ⌊q + 1/2⌋

/-- The mutated `delta` accumulator of `adjustLoad`, applied in source
order: pain, the good-readiness bonus, soreness, stress. -/
def adjustDelta (r : Readiness) (pain : Bool) : ℤ :=
  let d0 : ℤ := 0
  let d1 := if pain then d0 - 7 else d0
  let d2 := if 7 ≤ r.sleep ∧ r.soreness ≤ 3 ∧ r.stress ≤ 3 then d1 + 3 else d1
  let d3 := if 4 ≤ r.soreness then d2 - 2 else d2
  if 4 ≤ r.stress then d3 - 1 else d3

/-- `adjustLoad(prev, readiness, pain)`:
`Math.max(0, Math.round(prev * (1 + delta / 100)))`. -/
def adjustLoad (prev : ℤ) (r : Readiness) (pain : Bool) : ℤ :=
  max 0 (jsRound ((prev : ℚ) * (1 + (adjustDelta r pain : ℚ) / 100)))

/-- An exercise block of a planned session.  Template blocks carry no
`loadSuggestion`; the plan generator fills it in. -/
structure Block where
  move : String
  alt : Option String := none
  scheme : String
  targetRPE : Nat
  slots : Nat
  loadSuggestion : Option ℤ := none
deriving Repr, DecidableEq

/-- What a template generator returns. -/
structure Blueprint where
  title : String
  warmup : List String
  blocks : List Block
  finisher : String
deriving Repr, DecidableEq

/-- The `templates` table: three blueprint generators keyed by focus.
`lower_strength` and `upper_shoulder_safe` branch on the shoulder
constraint; `gpp` ignores constraints. -/
def templates (key : Focus) (constraints : Constraints) : Blueprint :=
  match key with
  | .lower_strength =>
    { title := "Lower Strength + Grip"
      warmup := ["Hip Airplanes 2x5/side", "T-Spine Opener 2x8", "Ankle ROCK 2x10"]
      blocks :=
        [{ move := "Back Squat",
           alt := if constraints.shoulder then some "Safety Bar Squat" else none,
           scheme := "Top set @8, backoffs 2x5 @70–75%", targetRPE := 8, slots := 3 },
         { move := "RDL", scheme := "3x6–8 @7–8", targetRPE := 8, slots := 3 },
         { move := "Carry (Farmer)", scheme := "4x40–60m", targetRPE := 7, slots := 4 },
         { move := "Grip Roll-ups", scheme := "3x to fatigue", targetRPE := 8, slots := 3 }]
      finisher := "Nasal Walk 6–10min or Sled Drags" }
  | .upper_shoulder_safe =>
    { title := "Upper Push/Pull (Shoulder-Safe)"
      warmup := ["Scap CARs 2x5", "Band External Rotations 2x12", "Wall Slides 2x8"]
      blocks :=
        [{ move := if constraints.shoulder then "DB Neutral Press" else "Barbell Bench Press",
           scheme := "Top set @8, 2x6 @70–75%", targetRPE := 8, slots := 3 },
         { move := "Chest-Supported Row", scheme := "3x8–10 @8", targetRPE := 8, slots := 3 },
         { move := "Cuff Isometrics", scheme := "3x20-30s", targetRPE := 6, slots := 3 },
         { move := "Pull-ups or Pulldown", scheme := "3x6–10 @8", targetRPE := 8, slots := 3 }]
      finisher := "Breathe-Down 5min (box 4-6-6-4)" }
  | .gpp =>
    { title := "GPP / Carries / Conditioning"
      warmup := ["World’s Greatest 2x", "Cossack 2x6/side"]
      blocks :=
        [{ move := "Sled Push/Drag", scheme := "10–15min easy-moderate", targetRPE := 6, slots := 1 },
         { move := "KB Swings", scheme := "8x15 EMOM", targetRPE := 7, slots := 8 },
         { move := "Carries Mix", scheme := "5–8min", targetRPE := 7, slots := 1 }]
      finisher := "Easy Zone-2 15–20min optional" }

/-- A completed-set record inside a session log.  `lastLoad` is nullable:
the `|| 0` fallback in the load estimator treats an absent and a zero load
alike. -/
structure CompletedSet where
  move : String
  sets : Nat := 0
  reps : Nat := 0
  rpe : Nat := 7
  lastLoad : Option ℤ := none
deriving Repr, DecidableEq

/-- A session log entry.  `rpeAvg` is the stored one-decimal average,
nullable because the triage code reads it with `?? 0`. -/
structure SessionLog where
  id : String
  weekIndex : Nat
  date : String
  completed : List CompletedSet
  rpeAvg : Option ℚ
  painFlag : Nat
  notes : String := ""
  missed : Bool := false
deriving Repr, DecidableEq

/-- A planned session as emitted by the generator. -/
structure Session where
  id : String
  day : Day
  title : String
  warmup : List String
  blocks : List Block
  finisher : String
  cues : List String
deriving Repr, DecidableEq

/-- `String.prototype.toLowerCase` on the character list of a string. -/
def lowerChars (s : String) : List Char := s.data.map Char.toLower

/-- The first list is a prefix of the second (character-list test). -/
def isPrefixOfL : List Char → List Char → Bool
  | [], _ => true
  | _ :: _, [] => false
  | p :: ps, h :: hs => p == h && isPrefixOfL ps hs

/-- `hay.includes(pat)`: substring containment on character lists. -/
def includesL (hay pat : List Char) : Bool :=
  isPrefixOfL pat hay ||
    match hay with
    | [] => false
    | _ :: hs => includesL hs pat

/-- `move.split(" ")[0]`: the characters before the first space
(character code 32). -/
def firstTokenChars (s : String) : List Char :=
  s.data.takeWhile (fun c => c != Char.ofNat 32)

/-- The fuzzy-match test of `suggestStartingLoad`:
`x.move.toLowerCase().includes(move.split(" ")[0].toLowerCase())`. -/
def fuzzyMatch (move : String) (x : CompletedSet) : Bool :=
  includesL (lowerChars x.move) ((firstTokenChars move).map Char.toLower)

/-- `s.completed?.some?.(() => true)`: the log entry holds at least one
completed-set record. -/
def hasCompleted (s : SessionLog) : Bool := !s.completed.isEmpty

/-- `suggestStartingLoad(move, lastWeek)`; `null` is `none`.  The logs are
scanned in reverse (most recent first) for the first entry with completed
sets; only that entry is searched for a fuzzy match, whose
`lastLoad || 0` is scaled by `1.02` and rounded. -/
def suggestStartingLoad (move : String) (lastWeek : List SessionLog) : Option ℤ :=
  match lastWeek.reverse.find? hasCompleted with
  | none => none
  | some last =>
    match last.completed.find? (fuzzyMatch move) with
    | none => none
    | some comp =>
      let base := comp.lastLoad.getD 0
      some (jsRound ((base : ℚ) * 1.02))

/-- The record returned by the plan generator. -/
structure GenResult where
  phase : Phase
  weekIndex : Nat
  plan : List Session
  notes : String
deriving Repr, DecidableEq

/-- `aiGenerateSessions(profile, readiness, lastWeek, phase, weekIndex)`.
The source draws each session id from the random `shortId()`; the
embedding takes an id supply `idGen`, indexed by the position of the day
in `daysAvailable`.  The `readiness` argument is unused by the source and
kept only for the signature. -/
def aiGenerateSessions (idGen : Nat → String) (profile : Profile)
    (readiness : Readiness) (lastWeek : List SessionLog) (phase : Phase)
    (weekIndex : Nat) : GenResult :=
  let constraints := inferConstraints profile
  let plan := profile.daysAvailable.enum.map (fun p =>
    let d := p.2
    let focus := chooseFocus d profile
    let tmpl := templates focus constraints
    { id := idGen p.1
      day := d
      title := tmpl.title
      warmup := tmpl.warmup
      blocks := tmpl.blocks.map (fun b =>
        { b with loadSuggestion :=
            if 8 ≤ b.targetRPE then suggestStartingLoad b.move lastWeek else none })
      finisher := tmpl.finisher
      cues := ["Own the positions.", "Leave 1–2 reps in the tank."] : Session })
  { phase := phase
    weekIndex := weekIndex
    plan := plan
    notes := if phase = .Deload then "Keep effort @6–7, cut 30% volume." else "" }

/-- The root program state (`defaultState` shape). -/
structure ProgramState where
  profile : Profile
  currentPhase : Phase
  weekIndex : Nat
  sessions : List Session
  sessionLogs : List SessionLog
  readinessToday : Readiness
deriving Repr, DecidableEq

/-- `defaultState` from the source. -/
def defaultState : ProgramState :=
  { profile := defaultProfile
    currentPhase := .Base
    weekIndex := 1
    sessions := []
    sessionLogs := []
    readinessToday := defaultReadiness }

/-- `nextWeek()`: the advance-week transition.  Every fourth week forces
Deload; otherwise Base→Build, Build→Peak, Deload→Base, and Peak falls
through unchanged.  The week index increments and the sessions clear. -/
def nextWeek (s : ProgramState) : ProgramState :=
  let nextIndex := s.weekIndex + 1
  let nextPhase :=
    if nextIndex % 4 = 0 then Phase.Deload
    else if s.currentPhase = .Base then .Build
    else if s.currentPhase = .Build then .Peak
    else if s.currentPhase = .Deload then .Base
    else s.currentPhase
  { s with weekIndex := nextIndex, currentPhase := nextPhase, sessions := [] }

/-- The three quick actions of the coach dashboard. -/
inductive QuickAction where
  | deload | cap_sets | swap_press
deriving Repr, DecidableEq

/-- The per-block transform of the `cap_sets` quick action:
`scheme + " (−1 set)"` and `slots := Math.max(1, (slots || 2) - 1)`. -/
def capSetsBlock (b : Block) : Block :=
  { b with scheme := b.scheme ++ " (−1 set)",
           slots := max 1 ((if b.slots = 0 then 2 else b.slots) - 1) }

/-- The per-block transform of the `swap_press` quick action:
blocks whose move matches `/press/i` get the fixed substitute. -/
def swapPressBlock (b : Block) : Block :=
  if includesL (lowerChars b.move) (lowerChars "press") then
    { b with move := "DB Neutral Press", scheme := b.scheme ++ " (shoulder-safe)" }
  else b

/-- `applyQuickAction(type)` on the program state. -/
def applyQuickAction (type : QuickAction) (s : ProgramState) : ProgramState :=
  match type with
  | .deload => { s with currentPhase := .Deload }
  | .cap_sets =>
    { s with sessions := s.sessions.map (fun sess =>
        { sess with blocks := sess.blocks.map capSetsBlock }) }
  | .swap_press =>
    { s with sessions := s.sessions.map (fun sess =>
        { sess with blocks := sess.blocks.map swapPressBlock }) }

/-- The `adherence` KPI:
`planned ? Math.round((completed / planned) * 100) : 0`, where `completed`
counts the logs of the current week. -/
def adherence (sessions : List Session) (sessionLogs : List SessionLog)
    (weekIndex : Nat) : ℤ :=
  let planned := sessions.length
  let completed := (sessionLogs.filter (fun l => l.weekIndex == weekIndex)).length
  if planned = 0 then 0 else jsRound (((completed : ℚ) / planned) * 100)

/-- The reason attached to a red flag.  The source interpolates the pain
flag or the RPE average into a string; the embedding carries the
interpolated value symbolically, abstracting only the number-to-text
rendering. -/
inductive FlagReason where
  | missedSession
  | pain (painFlag : Nat)
  | highRPE (rpeAvg : Option ℚ)
deriving Repr, DecidableEq

/-- A triage entry, `{ id, date, reason }`. -/
structure RedFlag where
  id : String
  date : String
  reason : FlagReason
deriving Repr, DecidableEq

/-- The reason ternary of `redFlags`:
`l.missed ? "Missed session" : l.painFlag >= 3 ? "Pain …/5" : "High RPE …"`. -/
def flagReason (l : SessionLog) : FlagReason :=
  if l.missed then .missedSession
  else if 3 ≤ l.painFlag then .pain l.painFlag
  else .highRPE l.rpeAvg

/-- `redFlags`: current-week logs with `painFlag >= 3`, `(rpeAvg ?? 0) >= 9`
or `missed`, mapped to `{ id, date, reason }`. -/
def redFlags (sessionLogs : List SessionLog) (weekIndex : Nat) : List RedFlag :=
  ((sessionLogs.filter (fun l => l.weekIndex == weekIndex)).filter
      (fun l => decide (3 ≤ l.painFlag) || decide ((9:ℚ) ≤ l.rpeAvg.getD 0) || l.missed)).map
    (fun l => { id := l.id, date := l.date, reason := flagReason l })

/-! ## Spec-side definitions

These restate the behaviour in the words of the specification's claims, to
be compared with the definitions above. -/

/-- Claim side: the cyclically next calendar day, Sunday wrapping to
Monday. -/
def claimNextDay : Day → Day
  | .Mon => .Tue
  | .Tue => .Wed
  | .Wed => .Thu
  | .Thu => .Fri
  | .Fri => .Sat
  | .Sat => .Sun
  | .Sun => .Mon

/-- Claim side: the focus precedence of C1. -/
def claimFocus (day : Day) (profile : Profile) : Focus :=
  match day with
  | .Mon => .lower_strength
  | .Thu => .upper_shoulder_safe
  | .Sat => .gpp
  | _ =>
    if profile.bjjDays.contains (claimNextDay day) then .upper_shoulder_safe
    else .lower_strength

/-- Claim side: the delta of C2 as a sum of independent additive
contributions. -/
def claimDelta (r : Readiness) (pain : Bool) : ℤ :=
  (if pain then -7 else 0) +
  (if 7 ≤ r.sleep ∧ r.soreness ≤ 3 ∧ r.stress ≤ 3 then 3 else 0) +
  (if 4 ≤ r.soreness then -2 else 0) +
  (if 4 ≤ r.stress then -1 else 0)

/-- Claim side: the next-phase table of C3. -/
def claimNextPhase (phase : Phase) (weekIndex : Nat) : Phase :=
  if (weekIndex + 1) % 4 = 0 then .Deload
  else
    match phase with
    | .Base => .Build
    | .Build => .Peak
    | .Deload => .Base
    | .Peak => .Peak

/-! ## Theorems -/

/-- C1: `chooseFocus` follows the exact precedence Monday → lower_strength,
Thursday → upper_shoulder_safe, Saturday → gpp regardless of `bjjDays`,
and on any other weekday returns upper_shoulder_safe iff the cyclically
next day (Sunday wrapping to Monday) is a bjj-day, else lower_strength. -/
theorem chooseFocus_spec :
    (∀ d : Day, nextDay d = claimNextDay d) ∧
    (∀ (d : Day) (p : Profile), chooseFocus d p = claimFocus d p) := by
  constructor
  · intro d; cases d <;> rfl
  · intro d p; cases d <;> rfl

/-- C4: every advance-week action increments the week index by exactly 1
and clears the session list; hence repeated advances increase the index by
exactly 1 each time. -/
theorem nextWeek_increments :
    (∀ s : ProgramState,
       (nextWeek s).weekIndex = s.weekIndex + 1 ∧ (nextWeek s).sessions = []) ∧
    (∀ (s : ProgramState) (n : Nat),
       (nextWeek^[n + 1] s).weekIndex = (nextWeek^[n] s).weekIndex + 1) := by
  constructor
  · intro s; exact ⟨rfl, rfl⟩
  · intro s n
    rw [Function.iterate_succ_apply']
    rfl

/-- C3: the advance-week transition forces Deload whenever
`(weekIndex+1) % 4 = 0`, and otherwise steps Base→Build, Build→Peak,
Deload→Base, while Peak persists; from week index 3 it yields week 4 and
Deload whatever the current phase. -/
theorem nextWeek_phase_spec :
    (∀ s : ProgramState,
       (nextWeek s).currentPhase = claimNextPhase s.currentPhase s.weekIndex) ∧
    (∀ s : ProgramState, s.weekIndex = 3 →
       (nextWeek s).weekIndex = 4 ∧ (nextWeek s).currentPhase = .Deload) := by
  constructor
  · intro s
    cases hp : s.currentPhase <;>
      by_cases h : (s.weekIndex + 1) % 4 = 0 <;>
        simp [nextWeek, claimNextPhase, h, hp]
  · intro s h3
    constructor
    · simp [nextWeek, h3]
    · simp [nextWeek, h3]

/-- Witness for C3: advancing the default state at week 3. -/
theorem nextWeek_phase_spec_witness :
    ({ defaultState with weekIndex := 3 } : ProgramState).weekIndex = 3 ∧
    ((nextWeek { defaultState with weekIndex := 3 }).weekIndex = 4 ∧
     (nextWeek { defaultState with weekIndex := 3 }).currentPhase = .Deload) :=
  ⟨rfl, nextWeek_phase_spec.2 { defaultState with weekIndex := 3 } rfl⟩

theorem adjustDelta_eq_claimDelta (r : Readiness) (pain : Bool) :
    adjustDelta r pain = claimDelta r pain := by
  simp only [adjustDelta, claimDelta]
  split_ifs <;> ring

/-- C2: `adjustLoad` returns `max 0 (round(prev * (1 + delta/100)))` where
`delta` is the sum of the independent additive contributions −7 (pain),
+3 (sleep ≥ 7, soreness ≤ 3, stress ≤ 3), −2 (soreness ≥ 4) and
−1 (stress ≥ 4); in particular the two documented examples give 103
and 90. -/
theorem adjustLoad_spec :
    (∀ (prev : ℤ) (r : Readiness) (pain : Bool),
       adjustLoad prev r pain =
         max 0 (jsRound ((prev : ℚ) * (1 + (claimDelta r pain : ℚ) / 100)))) ∧
    adjustLoad 100
      { sleep := 8, soreness := 2, stress := 2, hrv := none, bjjLoad := "moderate" }
      false = 103 ∧
    adjustLoad 100
      { sleep := 5, soreness := 5, stress := 5, hrv := none, bjjLoad := "moderate" }
      true = 90 := by
  refine ⟨?_, ?_, ?_⟩
  · intro prev r pain
    unfold adjustLoad
    rw [adjustDelta_eq_claimDelta]
  · have h : adjustDelta
        { sleep := 8, soreness := 2, stress := 2, hrv := none, bjjLoad := "moderate" }
        false = 3 := by decide
    unfold adjustLoad
    rw [h]
    unfold jsRound
    norm_num
  · have h : adjustDelta
        { sleep := 5, soreness := 5, stress := 5, hrv := none, bjjLoad := "moderate" }
        true = -10 := by decide
    unfold adjustLoad
    rw [h]
    unfold jsRound
    norm_num

/-- C9 (amended): week generation sets `notes` to the fixed advisory
string `"Keep effort @6–7, cut 30% volume."` when the phase is Deload and
to the empty string for every other phase. -/
theorem aiGenerateSessions_notes_spec :
    ∀ (idGen : Nat → String) (profile : Profile) (readiness : Readiness)
      (lastWeek : List SessionLog) (phase : Phase) (weekIndex : Nat),
      (aiGenerateSessions idGen profile readiness lastWeek phase weekIndex).notes =
        if phase = .Deload then "Keep effort @6–7, cut 30% volume." else "" := by
  intro idGen profile readiness lastWeek phase weekIndex
  rfl

/-- Counterexample for C9: at a concrete Deload generation the notes field
is not the advisory string quoted by the claim. -/
theorem aiGenerateSessions_notes_counterexample :
    (aiGenerateSessions (fun _ => "") defaultProfile defaultReadiness [] .Deload 1).notes ≠
      "reduce volume ~30%, cap effort at 6-7" := by
  decide

/-- A minimal planned session, used for concrete KPI inputs. -/
def emptySession : Session :=
  { id := "s1", day := .Mon, title := "", warmup := [], blocks := [],
    finisher := "", cues := [] }

/-- A week-1 log entry with no red-flag conditions. -/
def wk1Log : SessionLog :=
  { id := "l1", weekIndex := 1, date := "2025-01-06", completed := [],
    rpeAvg := some 7, painFlag := 0 }

/-- C7: adherence is `round(100 * loggedCount / plannedCount)` over the
current-week logs, and 0 when no sessions are planned; two planned with
one logged gives 50. -/
theorem adherence_spec :
    (∀ (sessions : List Session) (logs : List SessionLog) (wk : Nat),
       adherence sessions logs wk =
         if sessions.length = 0 then 0
         else jsRound (100 * ((logs.filter (fun l => l.weekIndex == wk)).length : ℚ) /
                sessions.length)) ∧
    (∀ (logs : List SessionLog) (wk : Nat), adherence [] logs wk = 0) ∧
    adherence [emptySession, emptySession] [wk1Log] 1 = 50 := by
  refine ⟨?_, ?_, ?_⟩
  · intro sessions logs wk
    by_cases h : sessions.length = 0
    · simp [adherence, h]
    · simp only [adherence, h, if_false]
      congr 1
      ring
  · intro logs wk
    rfl
  · have h : adherence [emptySession, emptySession] [wk1Log] 1 =
        jsRound (((1 : ℚ) / 2) * 100) := by
      simp [adherence, wk1Log, List.filter]
    rw [h]
    unfold jsRound
    norm_num

theorem capSetsBlock_eq (b : Block) :
    capSetsBlock b =
      { b with scheme := b.scheme ++ " (−1 set)", slots := max 1 (b.slots - 1) } := by
  rcases b with ⟨mv, altv, sch, rpe, slots, ls⟩
  cases slots
  · rfl
  · rfl

/-- C8: `cap_sets` appends the fixed annotation to every block's scheme
and decrements every block's slot count floored at one, over all blocks of
all sessions; applied twice to a block with 3 slots it leaves 1 slot and
two copies of the annotation. -/
theorem capSets_spec :
    (∀ s : ProgramState,
       (applyQuickAction .cap_sets s).sessions =
         s.sessions.map (fun sess =>
           { sess with blocks := sess.blocks.map (fun b =>
               { b with scheme := b.scheme ++ " (−1 set)",
                        slots := max 1 (b.slots - 1) }) })) ∧
    (∀ b : Block, b.slots = 3 →
       (capSetsBlock (capSetsBlock b)).slots = 1 ∧
       (capSetsBlock (capSetsBlock b)).scheme =
         b.scheme ++ " (−1 set)" ++ " (−1 set)") := by
  constructor
  · intro s
    have hfun : capSetsBlock = fun b : Block =>
        { b with scheme := b.scheme ++ " (−1 set)", slots := max 1 (b.slots - 1) } :=
      funext capSetsBlock_eq
    simp only [applyQuickAction, hfun]
  · intro b hb
    rcases b with ⟨mv, altv, sch, rpe, slots, ls⟩
    have hb' : slots = 3 := hb
    subst hb'
    exact ⟨rfl, rfl⟩

/-- A block with three slots, for the C8 witness. -/
def squatBlock3 : Block :=
  { move := "Back Squat", scheme := "Top set @8", targetRPE := 8, slots := 3 }

/-- Witness for C8: the double application at a concrete 3-slot block. -/
theorem capSets_spec_witness :
    squatBlock3.slots = 3 ∧
    ((capSetsBlock (capSetsBlock squatBlock3)).slots = 1 ∧
     (capSetsBlock (capSetsBlock squatBlock3)).scheme =
       squatBlock3.scheme ++ " (−1 set)" ++ " (−1 set)") :=
  ⟨rfl, capSets_spec.2 squatBlock3 rfl⟩

/-- Claim side: the red-flag condition of C6. -/
def claimIsRedFlag (l : SessionLog) : Bool :=
  decide (3 ≤ l.painFlag) || decide ((9:ℚ) ≤ l.rpeAvg.getD 0) || l.missed

/-- C6: a current-week log is reported iff `painFlag ≥ 3`, average effort
`≥ 9`, or `missed`, and the single reason follows the priority
missed > pain > high-effort; a missed log with pain 5 reports the missed
reason. -/
theorem redFlags_spec :
    (∀ (logs : List SessionLog) (wk : Nat),
       redFlags logs wk =
         ((logs.filter (fun l => l.weekIndex == wk)).filter claimIsRedFlag).map
           (fun l => { id := l.id, date := l.date, reason := flagReason l })) ∧
    (∀ l : SessionLog,
       claimIsRedFlag l = true ↔
         3 ≤ l.painFlag ∨ (9:ℚ) ≤ l.rpeAvg.getD 0 ∨ l.missed = true) ∧
    (∀ l : SessionLog, l.missed = true → flagReason l = .missedSession) ∧
    (∀ l : SessionLog, l.missed = false → 3 ≤ l.painFlag →
       flagReason l = .pain l.painFlag) ∧
    (∀ l : SessionLog, l.missed = false → l.painFlag < 3 →
       flagReason l = .highRPE l.rpeAvg) ∧
    (∀ l : SessionLog, l.missed = true → l.painFlag = 5 →
       flagReason l = .missedSession) := by
  refine ⟨?_, ?_, ?_, ?_, ?_, ?_⟩
  · intro logs wk
    rfl
  · intro l
    simp [claimIsRedFlag, or_assoc]
  · intro l h
    simp [flagReason, h]
  · intro l hm hp
    simp [flagReason, hm, hp]
  · intro l hm hp
    unfold flagReason
    rw [hm]
    simp only [Bool.false_eq_true, if_false]
    rw [if_neg (by omega)]
  · intro l h _
    simp [flagReason, h]

/-- A missed log with maximal pain flag, for the C6 witness. -/
def missedLog : SessionLog :=
  { id := "l2", weekIndex := 1, date := "2025-01-07", completed := [],
    rpeAvg := some 9, painFlag := 5, missed := true }

/-- Witness for C6: the missed-with-pain-5 log reports the missed reason. -/
theorem redFlags_spec_witness :
    (missedLog.missed = true ∧ missedLog.painFlag = 5) ∧
    flagReason missedLog = .missedSession :=
  ⟨⟨rfl, rfl⟩, redFlags_spec.2.2.2.2.2 missedLog rfl rfl⟩

theorem isPrefixOfL_iff : ∀ (p h : List Char), isPrefixOfL p h = true ↔ p <+: h := by
  intro p
  induction p with
  | nil => intro h; simp [isPrefixOfL]
  | cons c cs ih =>
    intro h
    cases h with
    | nil => simp [isPrefixOfL]
    | cons d ds =>
      simp [isPrefixOfL, List.cons_prefix_cons, ih ds, Bool.and_eq_true, beq_iff_eq]

theorem includesL_iff : ∀ (hay pat : List Char), includesL hay pat = true ↔ pat <:+: hay := by
  intro hay
  induction hay with
  | nil =>
    intro pat
    simp [includesL, isPrefixOfL_iff, List.prefix_iff_eq_append]
  | cons c cs ih =>
    intro pat
    rw [includesL]
    simp [Bool.or_eq_true, isPrefixOfL_iff, ih, List.infix_cons_iff]

/-- C5: the load estimator scans the logs most-recent-first for the first
entry with completed sets, fuzzy-matches inside only that entry (the
lower-cased first token of the target contained in the lower-cased
completed movement name), scales the matched load by 1.02 and rounds, is
at least the matched load when that load is non-negative, and returns
`none` exactly when no entry has completed sets or the scanned entry has
no match. -/
theorem suggestStartingLoad_spec :
    (∀ move : String, suggestStartingLoad move [] = none) ∧
    (∀ (move : String) (x : CompletedSet),
       fuzzyMatch move x = true ↔
         ((firstTokenChars move).map Char.toLower) <:+: lowerChars x.move) ∧
    (∀ (move : String) (logs : List SessionLog),
       suggestStartingLoad move logs = none ↔
         logs.reverse.find? hasCompleted = none ∨
         ∃ last, logs.reverse.find? hasCompleted = some last ∧
           last.completed.find? (fuzzyMatch move) = none) ∧
    (∀ (move : String) (logs : List SessionLog) (last : SessionLog)
       (comp : CompletedSet),
       logs.reverse.find? hasCompleted = some last →
       last.completed.find? (fuzzyMatch move) = some comp →
       suggestStartingLoad move logs =
         some (jsRound ((comp.lastLoad.getD 0 : ℚ) * 1.02)) ∧
       (0 ≤ comp.lastLoad.getD 0 →
         comp.lastLoad.getD 0 ≤ jsRound ((comp.lastLoad.getD 0 : ℚ) * 1.02))) := by
  refine ⟨?_, ?_, ?_, ?_⟩
  · intro move
    rfl
  · intro move x
    exact includesL_iff (lowerChars x.move) ((firstTokenChars move).map Char.toLower)
  · intro move logs
    cases h1 : logs.reverse.find? hasCompleted with
    | none =>
      have hs : suggestStartingLoad move logs = none := by
        simp only [suggestStartingLoad, h1]
      rw [hs]
      exact ⟨fun _ => Or.inl rfl, fun _ => rfl⟩
    | some last =>
      cases h2 : last.completed.find? (fuzzyMatch move) with
      | none =>
        have hs : suggestStartingLoad move logs = none := by
          simp only [suggestStartingLoad, h1, h2]
        rw [hs]
        exact ⟨fun _ => Or.inr ⟨last, rfl, h2⟩, fun _ => rfl⟩
      | some comp =>
        have hs : suggestStartingLoad move logs =
            some (jsRound ((comp.lastLoad.getD 0 : ℚ) * 1.02)) := by
          simp only [suggestStartingLoad, h1, h2]
        constructor
        · intro hc
          rw [hs] at hc
          exact Option.noConfusion hc
        · intro hor
          rcases hor with h | ⟨last', hl, hf⟩
          · exact Option.noConfusion h
          · injection hl with hl'
            subst hl'
            rw [h2] at hf
            exact Option.noConfusion hf
  · intro move logs last comp h1 h2
    constructor
    · simp only [suggestStartingLoad, h1, h2]
    · intro hb
      have hbq : (0:ℚ) ≤ ((comp.lastLoad.getD 0 : ℤ) : ℚ) := by exact_mod_cast hb
      unfold jsRound
      refine Int.le_floor.2 ?_
      have h102 : (1.02 : ℚ) = 102 / 100 := by norm_num
      rw [h102]
      nlinarith [hbq]

/-- A completed squat set with a recorded load, for the C5 witness. -/
def squatSet : CompletedSet :=
  { move := "Back Squat", sets := 3, reps := 5, rpe := 8, lastLoad := some 100 }

/-- A prior-week log containing `squatSet`, for the C5 witness. -/
def squatLog : SessionLog :=
  { id := "l3", weekIndex := 1, date := "2025-01-02", completed := [squatSet],
    rpeAvg := some 8, painFlag := 0 }

/-- Witness for C5: a concrete match of "Back Squat" in a one-entry log. -/
theorem suggestStartingLoad_spec_witness :
    ([squatLog].reverse.find? hasCompleted = some squatLog ∧
     squatLog.completed.find? (fuzzyMatch "Back Squat") = some squatSet) ∧
    (suggestStartingLoad "Back Squat" [squatLog] =
       some (jsRound ((squatSet.lastLoad.getD 0 : ℚ) * 1.02)) ∧
     (0 ≤ squatSet.lastLoad.getD 0 →
       squatSet.lastLoad.getD 0 ≤ jsRound ((squatSet.lastLoad.getD 0 : ℚ) * 1.02))) :=
  ⟨⟨by decide, by decide⟩,
   suggestStartingLoad_spec.2.2.2 "Back Squat" [squatLog] squatLog squatSet
     (by decide) (by decide)⟩

/-- C10: whenever the scanned entry yields a fuzzy match the result is
never `none`; a falsy matched load yields `some 0`, and a `none` result
happens exactly when that entry has no match. -/
theorem suggestStartingLoad_fallback :
    ∀ (move : String) (logs : List SessionLog) (last : SessionLog),
      logs.reverse.find? hasCompleted = some last →
      (∀ comp : CompletedSet,
         last.completed.find? (fuzzyMatch move) = some comp →
         (suggestStartingLoad move logs).isSome = true ∧
         (comp.lastLoad.getD 0 = 0 → suggestStartingLoad move logs = some 0)) ∧
      (suggestStartingLoad move logs = none ↔
         last.completed.find? (fuzzyMatch move) = none) := by
  intro move logs last h1
  constructor
  · intro comp h2
    constructor
    · simp only [suggestStartingLoad, h1, h2, Option.isSome_some]
    · intro h0
      simp only [suggestStartingLoad, h1, h2, h0]
      have h00 : jsRound (((0 : ℤ) : ℚ) * 1.02) = 0 := by
        unfold jsRound
        norm_num
      rw [h00]
  · cases h2 : last.completed.find? (fuzzyMatch move) with
    | none =>
      have hs : suggestStartingLoad move logs = none := by
        simp only [suggestStartingLoad, h1, h2]
      rw [hs]
      exact ⟨fun _ => rfl, fun _ => rfl⟩
    | some comp =>
      have hs : suggestStartingLoad move logs =
          some (jsRound ((comp.lastLoad.getD 0 : ℚ) * 1.02)) := by
        simp only [suggestStartingLoad, h1, h2]
      rw [hs]
      constructor
      · intro hc
        exact Option.noConfusion hc
      · intro hf
        exact Option.noConfusion hf

/-- A completed set without a recorded load, for the C10 witness. -/
def pressSet : CompletedSet :=
  { move := "Barbell Bench Press", lastLoad := none }

/-- A prior-week log containing `pressSet`, for the C10 witness. -/
def pressLog : SessionLog :=
  { id := "l4", weekIndex := 1, date := "2025-01-03", completed := [pressSet],
    rpeAvg := some 8, painFlag := 0 }

/-- Witness for C10: a concrete match whose load is absent yields
`some 0`, not `none`. -/
theorem suggestStartingLoad_fallback_witness :
    ([pressLog].reverse.find? hasCompleted = some pressLog ∧
     pressLog.completed.find? (fuzzyMatch "Bench Press") = some pressSet ∧
     pressSet.lastLoad.getD 0 = 0) ∧
    ((suggestStartingLoad "Bench Press" [pressLog]).isSome = true ∧
     suggestStartingLoad "Bench Press" [pressLog] = some 0) :=
  ⟨⟨by decide, by decide, rfl⟩,
   ⟨((suggestStartingLoad_fallback "Bench Press" [pressLog] pressLog (by decide)).1
       pressSet (by decide)).1,
    ((suggestStartingLoad_fallback "Bench Press" [pressLog] pressLog (by decide)).1
       pressSet (by decide)).2 rfl⟩⟩

end Move
